import Mathlib

/-!
Verification of the runc-shim process lifecycle engine
(`crates/runc-shim/src/asynchronous/runc.rs`).

The asynchronous Rust code is shallowly embedded: every external effect
(runtime CLI invocation, console-socket cleanup, OS signal delivery,
exit-monitor traffic) is recorded in a trace of `Event`s, and every fallible
external call is a parameter of `Except` type, so each lifecycle function
becomes a pure function from its inputs and environment to
(updated process record, trace, result).
-/

deriving instance DecidableEq for Except

namespace RuncShim

/-- Process states (`containerd_shim::api::Status`). -/
inductive Status
  | created
  | running
  | stopped
  | deleted
  deriving DecidableEq

/-- Stdio configuration of a process (`containerd_shim::io::Stdio`).
An empty path means the stream is not wired. -/
structure Stdio where
  stdin : String
  stdout : String
  stderr : String
  terminal : Bool
  deriving DecidableEq

/-- Process record (`ProcessTemplate` from containerd-shim, with the fields
the lifecycle code in `runc.rs` reads and writes). -/
structure ProcessTemplate where
  state : Status
  id : String
  stdio : Stdio
  pid : Int
  exit_code : Int
  exited_at : Option Nat
  console : Bool
  deriving DecidableEq

/-- Error variants of `containerd_shim::Error` used by `runc.rs`
(`other!` and `other_error!` construct the `Other` variant). -/
inductive ShimError
  | FailedPreconditionError (msg : String)
  | NotFoundError (msg : String)
  | Unimplemented (msg : String)
  | Other (msg : String)
  deriving DecidableEq

/-- Trace events: external effects performed by the lifecycle code. -/
inductive Event
  | runtimeCreate (id : String) (consoleSocket : Bool) (detach : Bool)
  | runtimeStart (id : String)
  | runtimeExec (id : String) (consoleSocket : Bool) (detach : Bool)
  | runtimeDelete (id : String) (force : Bool)
  | runtimeKill (id : String) (signal : Nat) (all : Bool)
  | cleanConsoleSocket
  | signalExitSignal
  | osKill (pid : Int) (signal : Int)
  | collectMetrics (pid : Int)
  | monitorSubscribe (sid : Nat)
  | spawnChild
  | monitorUnsubscribe (sid : Nat)
  deriving DecidableEq

/-- Whether an event is an invocation of the runtime CLI. -/
def isRuntimeCall : Event → Bool
  | Event.runtimeCreate _ _ _ => true
  | Event.runtimeStart _ => true
  | Event.runtimeExec _ _ _ => true
  | Event.runtimeDelete _ _ => true
  | Event.runtimeKill _ _ _ => true
  | _ => false

/-- Number of console-socket cleanups in a trace. -/
def countClean : List Event → Nat
  | [] => 0
  | Event.cleanConsoleSocket :: rest => countClean rest + 1
  | _ :: rest => countClean rest

/-- Substring test on character lists (models Rust `str::contains`). -/
def containsSub : List Char → List Char → Bool
  | [], needle => needle.isEmpty
  | c :: rest, needle => needle.isPrefixOf (c :: rest) || containsSub rest needle

/-- Models `e.to_string().to_lowercase().contains("does not exist")` from
`RuncInitLifecycle::delete` (lowercasing per character; the needle is
ASCII, for which Rust `to_lowercase` agrees with per-char lowering). -/
def containsDoesNotExist (msg : String) : Bool :=
  containsSub (msg.toList.map Char.toLower) "does not exist".toList

/-- Two's-complement reinterpretation of a `u32` as an `i32`
(the `signal as i32` cast in `RuncExecLifecycle::kill`). -/
def toInt32 (n : Nat) : Int :=
  let m : Nat := n % 2 ^ 32
  if m < 2 ^ 31 then (m : Int) else (m : Int) - 2 ^ 32

/-- Models `nix::sys::signal::Signal::try_from(i32)` on Linux: the
conversion succeeds exactly for the signal numbers 1..=31. -/
def validSignal (s : Int) : Bool :=
  decide (1 ≤ s) && decide (s ≤ 31)

/-- Outcome of `RuncExecLifecycle::kill`: success, a returned error, or a
panic (the `.unwrap()` on the signal conversion). -/
inductive KillOutcome
  | ok
  | err (e : ShimError)
  | panicked
  deriving DecidableEq

/-- Environment of a create/exec-start call: results of the external calls
it makes, in program order. -/
structure CreateEnv where
  /-- Result of the runtime CLI `create`/`exec` invocation. -/
  runtimeRes : Except String Unit
  /-- Result of `copy_console` (terminal mode): accepting the console
  socket, receiving the PTY fd and spawning the copy tasks. -/
  consoleRes : Except ShimError Unit
  /-- Result of `copy_io` (pipe mode). -/
  pipeRes : Except ShimError Unit
  /-- Result of reading and parsing the pid-file. -/
  pidfileRes : Except ShimError Int

/-- `copy_io_or_console` from `runc.rs`: in terminal mode, run
`copy_console`, then unconditionally clean the console socket, then
propagate the `copy_console` result (storing the console on success);
in pipe mode run `copy_io`. -/
def copy_io_or_console (p : ProcessTemplate) (socket : Bool) (pio : Bool)
    (env : CreateEnv) : ProcessTemplate × List Event × Except ShimError Unit :=
  if p.stdio.terminal then
    if socket then
      match env.consoleRes with
      | Except.ok _ =>
          ({ p with console := true }, [Event.cleanConsoleSocket], Except.ok ())
      | Except.error e => (p, [Event.cleanConsoleSocket], Except.error e)
    else (p, [], Except.ok ())
  else
    if pio then
      match env.pipeRes with
      | Except.ok _ => (p, [], Except.ok ())
      | Except.error e => (p, [], Except.error e)
    else (p, [], Except.ok ())

/-- `RuncFactory::do_create`: invoke runtime `create` (console socket is
created first in terminal mode, detach=false); on runtime error clean the
socket (if any) and fail; otherwise wire the I/O relay, read the pid-file
and store the pid.  The state field is not touched. -/
def RuncFactory.do_create (init : ProcessTemplate) (env : CreateEnv) :
    ProcessTemplate × List Event × Except ShimError Unit :=
  let socket := init.stdio.terminal
  let createEv := Event.runtimeCreate init.id socket false
  match env.runtimeRes with
  | Except.error e =>
      if socket then
        (init, [createEv, Event.cleanConsoleSocket],
          Except.error (ShimError.Other ("failed to create runc container: " ++ e)))
      else
        (init, [createEv],
          Except.error (ShimError.Other ("failed to create runc container: " ++ e)))
  | Except.ok _ =>
      let r := copy_io_or_console init socket (!socket) env
      match r.2.2 with
      | Except.error e => (r.1, createEv :: r.2.1, Except.error e)
      | Except.ok _ =>
          match env.pidfileRes with
          | Except.error e => (r.1, createEv :: r.2.1, Except.error e)
          | Except.ok pid => ({ r.1 with pid := pid }, createEv :: r.2.1, Except.ok ())

/-- `RuncExecFactory::create`: build a fresh exec process record in state
CREATED with pid 0 and no exit data. -/
def RuncExecFactory.create (exec_id : String) (sio : Stdio) : ProcessTemplate :=
  { state := Status.created
    id := exec_id
    stdio := sio
    pid := 0
    exit_code := 0
    exited_at := none
    console := false }

/-- Modelled from the spec: `ProcessTemplate::new` (containerd-shim crate,
not under src/) creates a process record in state CREATED with pid 0, no
exit code/time and no console, per the data model and state machine of the
spec (pid is 0 until successful create/start). -/
def ProcessTemplate.new (id : String) (sio : Stdio) : ProcessTemplate :=
  { state := Status.created
    id := id
    stdio := sio
    pid := 0
    exit_code := 0
    exited_at := none
    console := false }

/-- `RuncInitLifecycle::start`: invoke runtime `start`; on success set the
state to RUNNING. -/
def RuncInitLifecycle.start (p : ProcessTemplate) (res : Except String Unit) :
    ProcessTemplate × Except ShimError Unit :=
  match res with
  | Except.error e => (p, Except.error (ShimError.Other ("failed start: " ++ e)))
  | Except.ok _ => ({ p with state := Status.running }, Except.ok ())

/-- `RuncInitLifecycle::delete`: invoke runtime `delete` with force=true;
an error whose lowercased message contains "does not exist" is converted
to success; any other error is wrapped and returned *before* the
`ExitSignal` is fired; on the success path the `ExitSignal` is fired. -/
def RuncInitLifecycle.delete (p : ProcessTemplate) (res : Except String Unit) :
    List Event × Except ShimError Unit :=
  let tolerated : Except ShimError Unit :=
    match res with
    | Except.ok _ => Except.ok ()
    | Except.error e =>
        if !containsDoesNotExist e then
          Except.error (ShimError.Other ("failed delete: " ++ e))
        else Except.ok ()
  match tolerated with
  | Except.error e => ([Event.runtimeDelete p.id true], Except.error e)
  | Except.ok _ =>
      ([Event.runtimeDelete p.id true, Event.signalExitSignal], Except.ok ())

/-- `RuncInitLifecycle::stats` (Linux): if pid ≤ 0 return an `Other` error
(the `other!` macro) without touching the cgroup; otherwise collect the
metrics (result abstracted as `mres`). -/
def RuncInitLifecycle.stats (p : ProcessTemplate)
    (mres : Except ShimError Unit) : List Event × Except ShimError Unit :=
  if p.pid ≤ 0 then
    ([], Except.error (ShimError.Other
      ("failed to collect metrics because init process is " ++ toString p.pid)))
  else
    ([Event.collectMetrics p.pid], mres)

/-- `RuncExecLifecycle::start`: like `do_create` but the runtime call is
`exec` with detach=true, and on success the state is set to RUNNING in
addition to storing the pid-file pid. -/
def RuncExecLifecycle.start (p : ProcessTemplate) (env : CreateEnv) :
    ProcessTemplate × List Event × Except ShimError Unit :=
  let socket := p.stdio.terminal
  let execEv := Event.runtimeExec p.id socket true
  match env.runtimeRes with
  | Except.error e =>
      if socket then
        (p, [execEv, Event.cleanConsoleSocket],
          Except.error (ShimError.Other ("failed to start runc exec: " ++ e)))
      else
        (p, [execEv],
          Except.error (ShimError.Other ("failed to start runc exec: " ++ e)))
  | Except.ok _ =>
      let r := copy_io_or_console p socket (!socket) env
      match r.2.2 with
      | Except.error e => (r.1, execEv :: r.2.1, Except.error e)
      | Except.ok _ =>
          match env.pidfileRes with
          | Except.error e => (r.1, execEv :: r.2.1, Except.error e)
          | Except.ok pid =>
              ({ r.1 with pid := pid, state := Status.running },
                execEv :: r.2.1, Except.ok ())

/-- `RuncExecLifecycle::kill`: the `all` flag is unused; pid ≤ 0 fails the
precondition; a set `exited_at` yields NotFound; otherwise the signal
number is cast to i32 and converted with `Signal::try_from(..).unwrap()` —
an invalid number panics — and the signal is sent directly to the OS
process (result `osres`), with no runtime CLI involvement. -/
def RuncExecLifecycle.kill (p : ProcessTemplate) (signal : Nat) (_all : Bool)
    (osres : Except String Unit) : List Event × KillOutcome :=
  if p.pid ≤ 0 then
    ([], KillOutcome.err (ShimError.FailedPreconditionError "process not created"))
  else if p.exited_at.isSome then
    ([], KillOutcome.err (ShimError.NotFoundError "process already finished"))
  else
    let s := toInt32 signal
    if validSignal s then
      match osres with
      | Except.ok _ => ([Event.osKill p.pid s], KillOutcome.ok)
      | Except.error e => ([Event.osKill p.pid s], KillOutcome.err (ShimError.Other e))
    else ([], KillOutcome.panicked)

/-- `RuncExecLifecycle::delete`: fire the `ExitSignal` and return Ok,
leaving the process record untouched and making no runtime call. -/
def RuncExecLifecycle.delete (p : ProcessTemplate) :
    ProcessTemplate × List Event × Except ShimError Unit :=
  (p, [Event.signalExitSignal], Except.ok ())

/-- `containerd_shim::monitor::Subject`. -/
inductive Subject
  | pid (p : Int)
  | exec (cid : String) (eid : String)
  deriving DecidableEq

/-- `containerd_shim::monitor::ExitEvent`. -/
structure ExitEvent where
  subject : Subject
  exit_code : Int
  deriving DecidableEq

/-- `wait_pid` from `runc.rs`: receive exit-monitor events in order and
return the exit code of the first event whose subject is `Pid(pid)`;
all other events are skipped; an exhausted stream never returns (`none`). -/
def wait_pid (pid : Int) : List ExitEvent → Option Int
  | [] => none
  | e :: rest =>
      match e.subject with
      | Subject.pid epid =>
          if pid = epid then some e.exit_code else wait_pid pid rest
      | _ => wait_pid pid rest

/-- Spec-side restatement: the exit code carried by the first monitor event
whose pid equals the given pid. -/
def firstMatchingCode (pid : Int) : List ExitEvent → Option Int
  | [] => none
  | e :: rest =>
      if e.subject = Subject.pid pid then some e.exit_code
      else firstMatchingCode pid rest

/-- Environment of `ShimExecutor::execute`: monitor subscription result,
spawn result (child pid on success), captured output texts, and the stream
of exit-monitor events the subscription delivers. -/
structure SpawnEnv where
  subscribeRes : Except String Nat
  spawnRes : Except String Int
  stdoutText : String
  stderrText : String
  monitorEvents : List ExitEvent

/-- Outcome of `ShimExecutor::execute`; `completed status pid out err`
carries the raw wait status reconstructed via `ExitStatus::from_raw`;
`blocked` models the call never returning because no matching exit event
arrives. -/
inductive ExecuteOutcome
  | subscribeError (e : String)
  | spawnError (e : String)
  | completed (status : Int) (pid : Int) (stdout : String) (stderr : String)
  | blocked
  deriving DecidableEq

/-- `ShimExecutor::execute`: subscribe to the exit monitor before spawning;
on spawn failure unsubscribe and return the spawn error; otherwise read
stdout/stderr and `wait_pid` concurrently (`wait_pid` unsubscribes on
match, and `execute` unsubscribes once more afterwards). -/
def ShimExecutor.execute (env : SpawnEnv) : List Event × ExecuteOutcome :=
  match env.subscribeRes with
  | Except.error e => ([], ExecuteOutcome.subscribeError e)
  | Except.ok sid =>
      match env.spawnRes with
      | Except.error e =>
          ([Event.monitorSubscribe sid, Event.spawnChild,
            Event.monitorUnsubscribe sid], ExecuteOutcome.spawnError e)
      | Except.ok pid =>
          match wait_pid pid env.monitorEvents with
          | none => ([Event.monitorSubscribe sid, Event.spawnChild],
              ExecuteOutcome.blocked)
          | some code =>
              ([Event.monitorSubscribe sid, Event.spawnChild,
                Event.monitorUnsubscribe sid, Event.monitorUnsubscribe sid],
                ExecuteOutcome.completed code pid env.stdoutText env.stderrText)

/-- Direction of a FIFO open. -/
inductive OpenMode
  | readOnly
  | writeOnly
  deriving DecidableEq

/-- A FIFO open: path plus direction. -/
structure FifoOpen where
  path : String
  mode : OpenMode
  deriving DecidableEq

/-- An endpoint of a copy task. -/
inductive IoEnd
  | fifo (path : String)
  | consoleEnd
  | pipeStdin
  | pipeStdout
  | pipeStderr
  deriving DecidableEq

/-- A copy task spawned by `spawn_copy`: its endpoints, the FIFO opens
performed to set it up, and the keep-alive fd (if any) that its `on_close`
hook drops. -/
structure CopyTask where
  source : IoEnd
  sink : IoEnd
  opens : List FifoOpen
  keepAlive : Option FifoOpen
  deriving DecidableEq

/-- Why a copy task's select loop ended. -/
inductive CopyStop
  | exitSignalFired
  | copyFinished
  | copyError
  deriving DecidableEq

/-- Observable steps of a running copy task. -/
inductive TaskStep
  | copyLoopEnded (stop : CopyStop)
  | droppedFd (fd : FifoOpen)
  deriving DecidableEq

/-- `spawn_copy` body: run the copy/ExitSignal select loop to its end, then
run the `on_close` hook, which drops the keep-alive fd if there is one. -/
def spawn_copy (t : CopyTask) (stop : CopyStop) : List TaskStep :=
  TaskStep.copyLoopEnded stop ::
    (match t.keepAlive with
     | some fd => [TaskStep.droppedFd fd]
     | none => [])

/-- The pipe ends present in a `ProcessIO` (`io.stdin()` etc.). -/
structure PioPipes where
  hasStdin : Bool
  hasStdout : Bool
  hasStderr : Bool

/-- `ProcessIO` from `common.rs` as used by `copy_io`. -/
structure ProcessIO where
  copy : Bool
  io : Option PioPipes

/-- `copy_io` (pipe mode): stdin FIFO is opened read-only with no
keep-alive; stdout/stderr FIFOs are opened write-only plus a read-only
keep-alive that the task's `on_close` drops. Streams with an empty path or
a missing pipe end are not wired. -/
def copy_io (pio : ProcessIO) (sio : Stdio) : List CopyTask :=
  if !pio.copy then []
  else
    match pio.io with
    | none => []
    | some pp =>
        (if pp.hasStdin && !sio.stdin.isEmpty then
          [{ source := IoEnd.fifo sio.stdin
             sink := IoEnd.pipeStdin
             opens := [{ path := sio.stdin, mode := OpenMode.readOnly }]
             keepAlive := none }]
        else []) ++
        (if pp.hasStdout && !sio.stdout.isEmpty then
          [{ source := IoEnd.pipeStdout
             sink := IoEnd.fifo sio.stdout
             opens := [{ path := sio.stdout, mode := OpenMode.writeOnly },
                       { path := sio.stdout, mode := OpenMode.readOnly }]
             keepAlive := some { path := sio.stdout, mode := OpenMode.readOnly } }]
        else []) ++
        (if pp.hasStderr && !sio.stderr.isEmpty then
          [{ source := IoEnd.pipeStderr
             sink := IoEnd.fifo sio.stderr
             opens := [{ path := sio.stderr, mode := OpenMode.writeOnly },
                       { path := sio.stderr, mode := OpenMode.readOnly }]
             keepAlive := some { path := sio.stderr, mode := OpenMode.readOnly } }]
        else [])

/-- `copy_console` (terminal mode): the stdin FIFO is opened read-only plus
a write-only keep-alive; the stdout FIFO is opened write-only plus a
read-only keep-alive; each keep-alive is dropped by the task's `on_close`. -/
def copy_console (sio : Stdio) : List CopyTask :=
  (if !sio.stdin.isEmpty then
    [{ source := IoEnd.fifo sio.stdin
       sink := IoEnd.consoleEnd
       opens := [{ path := sio.stdin, mode := OpenMode.readOnly },
                 { path := sio.stdin, mode := OpenMode.writeOnly }]
       keepAlive := some { path := sio.stdin, mode := OpenMode.writeOnly } }]
  else []) ++
  (if !sio.stdout.isEmpty then
    [{ source := IoEnd.consoleEnd
       sink := IoEnd.fifo sio.stdout
       opens := [{ path := sio.stdout, mode := OpenMode.writeOnly },
                 { path := sio.stdout, mode := OpenMode.readOnly }]
       keepAlive := some { path := sio.stdout, mode := OpenMode.readOnly } }]
  else [])

/-- The claimed invariant: pid > 0 iff the state is RUNNING or STOPPED. -/
def pidStateEquiv (p : ProcessTemplate) : Prop :=
  0 < p.pid ↔ (p.state = Status.running ∨ p.state = Status.stopped)

instance (p : ProcessTemplate) : Decidable (pidStateEquiv p) := by
  unfold pidStateEquiv; infer_instance

/-- Whether a lifecycle result is a FailedPrecondition error. -/
def resultIsFailedPrecondition : Except ShimError Unit → Bool
  | Except.error (ShimError.FailedPreconditionError _) => true
  | _ => false

/-- Sample stdio: pipe mode, all three streams wired. -/
def sioSample : Stdio :=
  { stdin := "/fifo/in", stdout := "/fifo/out", stderr := "/fifo/err", terminal := false }

/-- Sample stdio: terminal mode. -/
def sioTermSample : Stdio :=
  { stdin := "/fifo/in", stdout := "/fifo/out", stderr := "", terminal := true }

/-- Sample init process fresh from `ProcessTemplate.new`. -/
def initSample : ProcessTemplate := ProcessTemplate.new "c1" sioSample

/-- Sample environment in which every external call succeeds and the
pid-file contains 1234. -/
def envSample : CreateEnv :=
  { runtimeRes := Except.ok ()
    consoleRes := Except.ok ()
    pipeRes := Except.ok ()
    pidfileRes := Except.ok 1234 }

/-- Sample exec process that has been created and started (pid 5). -/
def killSample : ProcessTemplate :=
  { state := Status.running
    id := "e1"
    stdio := sioSample
    pid := 5
    exit_code := 0
    exited_at := none
    console := false }

end RuncShim

namespace RuncShim

/-- Helper: the sample process-IO triple with all pipe ends present. -/
def pioSample : ProcessIO :=
  { copy := true, io := some { hasStdin := true, hasStdout := true, hasStderr := true } }

/-- The stdout copy task produced by `copy_io pioSample sioSample`. -/
def stdoutTaskSample : CopyTask :=
  { source := IoEnd.pipeStdout
    sink := IoEnd.fifo "/fifo/out"
    opens := [{ path := "/fifo/out", mode := OpenMode.writeOnly },
              { path := "/fifo/out", mode := OpenMode.readOnly }]
    keepAlive := some { path := "/fifo/out", mode := OpenMode.readOnly } }

/-- Sample init process in terminal mode. -/
def termSample : ProcessTemplate := ProcessTemplate.new "c2" sioTermSample

/-- Sample environment whose console copy fails. -/
def envConsoleFailSample : CreateEnv :=
  { runtimeRes := Except.ok ()
    consoleRes := Except.error (ShimError.Other "io failure")
    pipeRes := Except.ok ()
    pidfileRes := Except.ok 7 }

/-- Sample executor environment: child pid 9; the monitor delivers events
for pid 7 and for an exec subject before the child's own exit event. -/
def env6Sample : SpawnEnv :=
  { subscribeRes := Except.ok 1
    spawnRes := Except.ok 9
    stdoutText := "out"
    stderrText := "err"
    monitorEvents :=
      [{ subject := Subject.pid 7, exit_code := 3 },
       { subject := Subject.exec "c" "e", exit_code := 4 },
       { subject := Subject.pid 9, exit_code := 256 },
       { subject := Subject.pid 9, exit_code := 0 }] }

/-- Sample executor environment whose spawn fails. -/
def env7Sample : SpawnEnv :=
  { subscribeRes := Except.ok 2
    spawnRes := Except.error "spawn failed"
    stdoutText := ""
    stderrText := ""
    monitorEvents := [] }

lemma wait_pid_eq_firstMatchingCode (pid : Int) (evs : List ExitEvent) :
    wait_pid pid evs = firstMatchingCode pid evs := by
  induction evs with
  | nil => rfl
  | cons e rest ih =>
    cases hs : e.subject with
    | pid epid =>
      by_cases h : pid = epid
      · subst h
        simp [wait_pid, firstMatchingCode, hs]
      · simp [wait_pid, firstMatchingCode, hs, h, ih, Ne.symm h]
    | exec cid eid => simp [wait_pid, firstMatchingCode, hs, ih]

end RuncShim

namespace RuncShim

/-- Claim C2 counterexample: a runtime delete failure whose message does
not contain "does not exist" makes `RuncInitLifecycle::delete` return an
error without firing the `ExitSignal`, contradicting the claim that the
signal is fired on every return path. -/
theorem init_delete_error_skips_exit_signal_cex :
    RuncInitLifecycle.delete initSample (Except.error "permission denied")
      = ([Event.runtimeDelete "c1" true],
          Except.error (ShimError.Other "failed delete: permission denied"))
    ∧ Event.signalExitSignal ∉
        (RuncInitLifecycle.delete initSample (Except.error "permission denied")).1 := by
  constructor
  · decide
  · decide

/-- Claim C2 (amended): init delete always invokes the runtime delete with
force=true; an error whose lowercased message contains "does not exist" is
converted to success; the `ExitSignal` is fired exactly on the paths where
delete returns success (which include the tolerated "does not exist"
failure), and not when the runtime delete fails with any other error. -/
theorem init_delete_amended (p : ProcessTemplate) (res : Except String Unit) :
    (RuncInitLifecycle.delete p res).1.head? = some (Event.runtimeDelete p.id true)
    ∧ (∀ e, res = Except.error e → containsDoesNotExist e = true →
        RuncInitLifecycle.delete p res
          = ([Event.runtimeDelete p.id true, Event.signalExitSignal], Except.ok ()))
    ∧ ((RuncInitLifecycle.delete p res).2 = Except.ok () ↔
        Event.signalExitSignal ∈ (RuncInitLifecycle.delete p res).1)
    ∧ (∀ e, res = Except.error e → containsDoesNotExist e = false →
        RuncInitLifecycle.delete p res
          = ([Event.runtimeDelete p.id true],
              Except.error (ShimError.Other ("failed delete: " ++ e)))) := by
  refine ⟨?_, ?_, ?_, ?_⟩
  · rcases res with e | u
    · by_cases h : containsDoesNotExist e <;>
        simp [RuncInitLifecycle.delete, h]
    · simp [RuncInitLifecycle.delete]
  · intro e he hc
    subst he
    simp [RuncInitLifecycle.delete, hc]
  · rcases res with e | u
    · by_cases h : containsDoesNotExist e <;>
        simp [RuncInitLifecycle.delete, h]
    · simp [RuncInitLifecycle.delete]
  · intro e he hc
    subst he
    simp [RuncInitLifecycle.delete, hc]

/-- Claim C2 witness: on a tolerated "does not exist" failure the delete
returns success and fires the signal. -/
theorem init_delete_amended_witness :
    RuncInitLifecycle.delete initSample (Except.error "container does not exist")
      = ([Event.runtimeDelete initSample.id true, Event.signalExitSignal],
          Except.ok ()) :=
  (init_delete_amended initSample
      (Except.error "container does not exist")).2.1
    "container does not exist" rfl (by decide)

/-- Claim C3 counterexample: on an init process with pid 0, `stats` returns
an `Other` error, not a FailedPrecondition error (and reads no metrics). -/
theorem init_stats_error_kind_cex :
    RuncInitLifecycle.stats initSample (Except.ok ())
      = ([], Except.error (ShimError.Other
          "failed to collect metrics because init process is 0"))
    ∧ resultIsFailedPrecondition
        (RuncInitLifecycle.stats initSample (Except.ok ())).2 = false := by
  constructor
  · decide
  · decide

/-- Claim C3 (amended): for every init process with pid ≤ 0, `stats`
returns an `Other` error (built by the `other!` macro, not a
FailedPrecondition error) and does not read cgroup metrics (empty trace). -/
theorem init_stats_amended (p : ProcessTemplate) (mres : Except ShimError Unit)
    (h : p.pid ≤ 0) :
    RuncInitLifecycle.stats p mres
      = ([], Except.error (ShimError.Other
          ("failed to collect metrics because init process is " ++ toString p.pid)))
    ∧ resultIsFailedPrecondition (RuncInitLifecycle.stats p mres).2 = false := by
  constructor
  · simp [RuncInitLifecycle.stats, h]
  · simp [RuncInitLifecycle.stats, h, resultIsFailedPrecondition]

/-- Claim C3 witness at pid 0. -/
theorem init_stats_amended_witness :
    (RuncInitLifecycle.stats initSample (Except.ok ())
      = ([], Except.error (ShimError.Other
          ("failed to collect metrics because init process is "
            ++ toString initSample.pid))))
    ∧ resultIsFailedPrecondition
        (RuncInitLifecycle.stats initSample (Except.ok ())).2 = false :=
  init_stats_amended initSample (Except.ok ()) (by decide)

/-- Claim C4 counterexample: an exec process with pid > 0 and no exit time,
killed with the invalid signal number 0, panics instead of sending a signal
to the OS process, so the claim's "otherwise" branch does not hold for
every signal number. -/
theorem exec_kill_invalid_signal_cex :
    RuncExecLifecycle.kill killSample 0 true (Except.ok ())
      = ([], KillOutcome.panicked) := by
  decide

/-- Claim C4 (amended): exec kill ignores the `all` flag; pid ≤ 0 yields
FailedPrecondition "process not created"; a set `exited_at` yields NotFound
"process already finished"; otherwise, when the signal number converts to a
valid OS signal, the signal is sent directly to the OS process with that
pid and no runtime CLI call is made (an invalid signal number panics). -/
theorem exec_kill_amended (p : ProcessTemplate) (signal : Nat)
    (all : Bool) (osres : Except String Unit) :
    (∀ a b : Bool,
      RuncExecLifecycle.kill p signal a osres = RuncExecLifecycle.kill p signal b osres)
    ∧ (p.pid ≤ 0 →
        RuncExecLifecycle.kill p signal all osres
          = ([], KillOutcome.err
              (ShimError.FailedPreconditionError "process not created")))
    ∧ (0 < p.pid → p.exited_at.isSome = true →
        RuncExecLifecycle.kill p signal all osres
          = ([], KillOutcome.err
              (ShimError.NotFoundError "process already finished")))
    ∧ (0 < p.pid → p.exited_at = none → validSignal (toInt32 signal) = true →
        (RuncExecLifecycle.kill p signal all osres).1
          = [Event.osKill p.pid (toInt32 signal)]) := by
  refine ⟨fun a b => rfl, ?_, ?_, ?_⟩
  · intro h
    simp [RuncExecLifecycle.kill, h]
  · intro h1 h2
    have h0 : ¬ p.pid ≤ 0 := by omega
    simp [RuncExecLifecycle.kill, h0, h2]
  · intro h1 h2 h3
    have h0 : ¬ p.pid ≤ 0 := by omega
    rcases osres with e | u <;>
      simp [RuncExecLifecycle.kill, h0, h2, h3]

/-- Claim C4 witness: SIGKILL (9) on a live exec process with pid 5 is sent
directly to the OS. -/
theorem exec_kill_amended_witness :
    (RuncExecLifecycle.kill killSample 9 true (Except.ok ())).1
      = [Event.osKill killSample.pid (toInt32 9)] :=
  (exec_kill_amended killSample 9 true (Except.ok ())).2.2.2
    (by decide) (by decide) (by decide)

/-- Claim C9: for an exec process with pid > 0 and `exited_at` unset, a
signal number whose i32 cast is not a valid OS signal makes kill panic (the
unwrapped conversion) rather than return an error. -/
theorem exec_kill_invalid_signal_panics (p : ProcessTemplate) (signal : Nat)
    (all : Bool) (osres : Except String Unit)
    (h1 : 0 < p.pid) (h2 : p.exited_at = none)
    (h3 : validSignal (toInt32 signal) = false) :
    RuncExecLifecycle.kill p signal all osres = ([], KillOutcome.panicked) := by
  have h0 : ¬ p.pid ≤ 0 := by omega
  simp [RuncExecLifecycle.kill, h0, h2, h3]

/-- Claim C9 witness: signal number 0 panics on a live exec process. -/
theorem exec_kill_invalid_signal_panics_witness :
    RuncExecLifecycle.kill killSample 0 false (Except.ok ())
      = ([], KillOutcome.panicked) :=
  exec_kill_invalid_signal_panics killSample 0 false (Except.ok ())
    (by decide) (by decide) (by decide)

/-- Claim C10: exec delete always succeeds, leaves the process record (all
fields, in particular the state) unchanged, fires the `ExitSignal`, and
performs no runtime CLI call. -/
theorem exec_delete_frame (p : ProcessTemplate) :
    RuncExecLifecycle.delete p = (p, [Event.signalExitSignal], Except.ok ())
    ∧ ((RuncExecLifecycle.delete p).2.1.all fun e => !isRuntimeCall e) = true := by
  exact ⟨rfl, rfl⟩

end RuncShim

namespace RuncShim

/-- Claim C6: `wait_pid` returns the raw wait status of the first monitor
event whose pid equals the given pid (skipping all others); a successful
`execute` returns exactly that status for the spawned child's pid, together
with the captured output texts; and if no event for the child's pid ever
arrives, the wait never terminates (modelled as `blocked`), so events for
other pids never end the wait. -/
theorem execute_first_matching_exit (env : SpawnEnv) :
    (∀ pid evs, wait_pid pid evs = firstMatchingCode pid evs)
    ∧ (∀ pid code out errText,
        (ShimExecutor.execute env).2 = ExecuteOutcome.completed code pid out errText →
          env.spawnRes = Except.ok pid
          ∧ firstMatchingCode pid env.monitorEvents = some code
          ∧ out = env.stdoutText ∧ errText = env.stderrText)
    ∧ (∀ sid pid, env.subscribeRes = Except.ok sid → env.spawnRes = Except.ok pid →
        firstMatchingCode pid env.monitorEvents = none →
        (ShimExecutor.execute env).2 = ExecuteOutcome.blocked) := by
  refine ⟨wait_pid_eq_firstMatchingCode, ?_, ?_⟩
  · intro pid code out errText h
    rcases hs : env.subscribeRes with e | sid
    · simp [ShimExecutor.execute, hs] at h
    · rcases hp : env.spawnRes with e | cpid
      · simp [ShimExecutor.execute, hs, hp] at h
      · rcases hw : wait_pid cpid env.monitorEvents with _ | c
        · simp [ShimExecutor.execute, hs, hp, hw] at h
        · simp only [ShimExecutor.execute, hs, hp, hw,
            ExecuteOutcome.completed.injEq] at h
          obtain ⟨h1, h2, h3, h4⟩ := h
          subst h2
          refine ⟨rfl, ?_, h3.symm, h4.symm⟩
          rw [← wait_pid_eq_firstMatchingCode, hw, h1]
  · intro sid pid hs hp hnone
    have hw : wait_pid pid env.monitorEvents = none := by
      rw [wait_pid_eq_firstMatchingCode]; exact hnone
    simp [ShimExecutor.execute, hs, hp, hw]

/-- Claim C6 witness: the child (pid 9) exits with raw status 256; earlier
events for pid 7 and for an exec subject are skipped, and a later pid-9
event is not used. -/
theorem execute_first_matching_exit_witness :
    env6Sample.spawnRes = Except.ok 9
    ∧ firstMatchingCode 9 env6Sample.monitorEvents = some 256
    ∧ ("out" : String) = env6Sample.stdoutText
    ∧ ("err" : String) = env6Sample.stderrText :=
  (execute_first_matching_exit env6Sample).2.1 9 256 "out" "err" (by decide)

/-- Claim C7: `execute` subscribes to the exit monitor before attempting to
spawn the child, and on spawn failure it removes the subscription before
returning the spawn error. -/
theorem execute_subscribe_before_spawn (env : SpawnEnv) :
    (∀ sid, env.subscribeRes = Except.ok sid →
      ∃ rest, (ShimExecutor.execute env).1
        = Event.monitorSubscribe sid :: Event.spawnChild :: rest)
    ∧ (∀ sid e, env.subscribeRes = Except.ok sid → env.spawnRes = Except.error e →
        ShimExecutor.execute env
          = ([Event.monitorSubscribe sid, Event.spawnChild,
              Event.monitorUnsubscribe sid], ExecuteOutcome.spawnError e)) := by
  constructor
  · intro sid hs
    rcases hp : env.spawnRes with e | cpid
    · exact ⟨[Event.monitorUnsubscribe sid],
        by simp [ShimExecutor.execute, hs, hp]⟩
    · rcases hw : wait_pid cpid env.monitorEvents with _ | c
      · exact ⟨[], by simp [ShimExecutor.execute, hs, hp, hw]⟩
      · exact ⟨[Event.monitorUnsubscribe sid, Event.monitorUnsubscribe sid],
          by simp [ShimExecutor.execute, hs, hp, hw]⟩
  · intro sid e hs hp
    simp [ShimExecutor.execute, hs, hp]

/-- Claim C7 witness: a failing spawn yields subscribe, spawn attempt,
unsubscribe, and the spawn error. -/
theorem execute_subscribe_before_spawn_witness :
    ShimExecutor.execute env7Sample
      = ([Event.monitorSubscribe 2, Event.spawnChild, Event.monitorUnsubscribe 2],
          ExecuteOutcome.spawnError "spawn failed") :=
  (execute_subscribe_before_spawn env7Sample).2 2 "spawn failed" rfl rfl

end RuncShim

namespace RuncShim

/-- Claim C5: whenever a console socket was created (terminal mode), init
create and exec start clean it exactly once before returning, on every
path: runtime create/exec failure, console copy failure or success, and
pid-file read failure or success. -/
theorem console_socket_always_cleaned (p : ProcessTemplate) (env : CreateEnv)
    (h : p.stdio.terminal = true) :
    countClean (RuncFactory.do_create p env).2.1 = 1
    ∧ countClean (RuncExecLifecycle.start p env).2.1 = 1 := by
  rcases env with ⟨rr, cr, pr, pfr⟩
  rcases rr with e | u <;> rcases cr with ce | cu <;> rcases pfr with fe | fn <;>
    simp [RuncFactory.do_create, RuncExecLifecycle.start, copy_io_or_console,
      h, countClean]

/-- Claim C5 witness: terminal-mode create/start with a failing console
copy still clean the socket exactly once. -/
theorem console_socket_always_cleaned_witness :
    countClean (RuncFactory.do_create termSample envConsoleFailSample).2.1 = 1
    ∧ countClean (RuncExecLifecycle.start termSample envConsoleFailSample).2.1 = 1 :=
  console_socket_always_cleaned termSample envConsoleFailSample (by decide)

end RuncShim

namespace RuncShim

/-- Claim C1 counterexample: a successful init create (pid-file 1234) on a
fresh CREATED init process stores pid 1234 while leaving the state at
CREATED, so pid > 0 holds but state ∈ {RUNNING, STOPPED} does not: the
claimed equivalence fails right after init create. -/
theorem pid_state_equiv_fails_after_init_create :
    (RuncFactory.do_create initSample envSample).2.2 = Except.ok ()
    ∧ (RuncFactory.do_create initSample envSample).1.pid = 1234
    ∧ (RuncFactory.do_create initSample envSample).1.state = Status.created
    ∧ ¬ pidStateEquiv (RuncFactory.do_create initSample envSample).1 := by
  exact ⟨by decide, by decide, by decide, by decide⟩

/-- Claim C1 (amended): the equivalence pid > 0 ⇔ state ∈ {RUNNING,
STOPPED} holds for a freshly created exec process, after a successful exec
start whose pid-file value is positive, and after a successful init start
on a process whose pid is already positive; but after a successful init
create it fails: the positive pid-file value is stored while the state
remains CREATED. -/
theorem pid_state_equiv_amended (eid : String) (sio : Stdio)
    (p : ProcessTemplate) (env : CreateEnv) (n : Int) (r : Except String Unit) :
    pidStateEquiv (RuncExecFactory.create eid sio)
    ∧ (env.pidfileRes = Except.ok n → 0 < n →
        (RuncExecLifecycle.start p env).2.2 = Except.ok () →
        pidStateEquiv (RuncExecLifecycle.start p env).1)
    ∧ (0 < p.pid → (RuncInitLifecycle.start p r).2 = Except.ok () →
        pidStateEquiv (RuncInitLifecycle.start p r).1)
    ∧ (p.state = Status.created → env.pidfileRes = Except.ok n → 0 < n →
        (RuncFactory.do_create p env).2.2 = Except.ok () →
        (RuncFactory.do_create p env).1.pid = n
          ∧ (RuncFactory.do_create p env).1.state = Status.created
          ∧ ¬ pidStateEquiv (RuncFactory.do_create p env).1) := by
  obtain ⟨rr, cr, pr, pfr⟩ := env
  refine ⟨?_, ?_, ?_, ?_⟩
  · simp [pidStateEquiv, RuncExecFactory.create]
  · intro hpf hn hok
    rcases rr with e | u <;> rcases cr with ce | cu <;> rcases pr with pe | pu <;>
      rcases hterm : p.stdio.terminal <;>
      simp_all [RuncExecLifecycle.start, copy_io_or_console, pidStateEquiv]
  · intro hp hok
    rcases r with e | u
    · simp [RuncInitLifecycle.start] at hok
    · simp [RuncInitLifecycle.start, pidStateEquiv, hp]
  · intro hst hpf hn hok
    rcases rr with e | u <;> rcases cr with ce | cu <;> rcases pr with pe | pu <;>
      rcases hterm : p.stdio.terminal <;>
      simp_all [RuncFactory.do_create, copy_io_or_console, pidStateEquiv]

/-- Claim C1 witness: concrete instance of the amended claim's init-create
conjunct at pid-file value 1234. -/
theorem pid_state_equiv_amended_witness :
    (RuncFactory.do_create initSample envSample).1.pid = 1234
    ∧ (RuncFactory.do_create initSample envSample).1.state = Status.created
    ∧ ¬ pidStateEquiv (RuncFactory.do_create initSample envSample).1 :=
  (pid_state_equiv_amended "e" sioSample initSample envSample 1234
      (Except.ok ())).2.2.2 (by decide) rfl (by decide) (by decide)

end RuncShim

namespace RuncShim

lemma mem_copy_io (pio : ProcessIO) (sio : Stdio) (t : CopyTask)
    (ht : t ∈ copy_io pio sio) :
    t = { source := IoEnd.fifo sio.stdin, sink := IoEnd.pipeStdin,
          opens := [{ path := sio.stdin, mode := OpenMode.readOnly }],
          keepAlive := none }
    ∨ t = { source := IoEnd.pipeStdout, sink := IoEnd.fifo sio.stdout,
            opens := [{ path := sio.stdout, mode := OpenMode.writeOnly },
                      { path := sio.stdout, mode := OpenMode.readOnly }],
            keepAlive := some { path := sio.stdout, mode := OpenMode.readOnly } }
    ∨ t = { source := IoEnd.pipeStderr, sink := IoEnd.fifo sio.stderr,
            opens := [{ path := sio.stderr, mode := OpenMode.writeOnly },
                      { path := sio.stderr, mode := OpenMode.readOnly }],
            keepAlive := some { path := sio.stderr, mode := OpenMode.readOnly } } := by
  rcases pio with ⟨cf, io⟩
  unfold copy_io at ht
  cases cf
  · simp at ht
  · cases io with
    | none => simp at ht
    | some pp =>
      simp only [Bool.not_true, Bool.false_eq_true, if_false, List.mem_append] at ht
      rcases ht with (h | h) | h <;> split at h <;> simp_all

lemma mem_copy_console (sio : Stdio) (t : CopyTask)
    (ht : t ∈ copy_console sio) :
    t = { source := IoEnd.fifo sio.stdin, sink := IoEnd.consoleEnd,
          opens := [{ path := sio.stdin, mode := OpenMode.readOnly },
                    { path := sio.stdin, mode := OpenMode.writeOnly }],
          keepAlive := some { path := sio.stdin, mode := OpenMode.writeOnly } }
    ∨ t = { source := IoEnd.consoleEnd, sink := IoEnd.fifo sio.stdout,
            opens := [{ path := sio.stdout, mode := OpenMode.writeOnly },
                      { path := sio.stdout, mode := OpenMode.readOnly }],
            keepAlive := some { path := sio.stdout, mode := OpenMode.readOnly } } := by
  unfold copy_console at ht
  simp only [List.mem_append] at ht
  rcases ht with h | h <;> split at h <;> simp_all

end RuncShim

namespace RuncShim

/-- Claim C8: every copy task whose sink is a FIFO (stdout/stderr in pipe
mode, stdout in terminal mode) opens that FIFO in both directions and holds
the read-only open as its keep-alive fd; the stdin-FIFO task in terminal
mode holds the write-only open as its keep-alive; and a task's keep-alive
fd is dropped exactly once, as the last step after its copy loop ends (for
every ending cause), via the `on_close` hook. -/
theorem copy_keep_alive_fds (pio : ProcessIO) (sio : Stdio) :
    (∀ t ∈ copy_io pio sio, ∀ path, t.sink = IoEnd.fifo path →
        t.keepAlive = some { path := path, mode := OpenMode.readOnly }
        ∧ ({ path := path, mode := OpenMode.writeOnly } : FifoOpen) ∈ t.opens
        ∧ ({ path := path, mode := OpenMode.readOnly } : FifoOpen) ∈ t.opens)
    ∧ (∀ t ∈ copy_console sio, ∀ path, t.sink = IoEnd.fifo path →
        t.keepAlive = some { path := path, mode := OpenMode.readOnly }
        ∧ ({ path := path, mode := OpenMode.writeOnly } : FifoOpen) ∈ t.opens
        ∧ ({ path := path, mode := OpenMode.readOnly } : FifoOpen) ∈ t.opens)
    ∧ (∀ t ∈ copy_console sio, ∀ path, t.source = IoEnd.fifo path →
        t.keepAlive = some { path := path, mode := OpenMode.writeOnly }
        ∧ ({ path := path, mode := OpenMode.readOnly } : FifoOpen) ∈ t.opens
        ∧ ({ path := path, mode := OpenMode.writeOnly } : FifoOpen) ∈ t.opens)
    ∧ (∀ t : CopyTask, ∀ fd : FifoOpen, ∀ stop : CopyStop,
        t.keepAlive = some fd →
        spawn_copy t stop = [TaskStep.copyLoopEnded stop, TaskStep.droppedFd fd]) := by
  refine ⟨?_, ?_, ?_, ?_⟩
  · intro t ht path hsink
    rcases mem_copy_io pio sio t ht with h | h | h <;> subst h <;> simp_all
  · intro t ht path hsink
    rcases mem_copy_console sio t ht with h | h <;> subst h <;> simp_all
  · intro t ht path hsrc
    rcases mem_copy_console sio t ht with h | h <;> subst h <;> simp_all
  · intro t fd stop h
    unfold spawn_copy
    rw [h]

/-- Claim C8 witness: the stdout copy task of a pipe-mode relay holds the
read-only keep-alive for "/fifo/out" alongside the write-only sink open. -/
theorem copy_keep_alive_fds_witness :
    stdoutTaskSample.keepAlive
        = some { path := "/fifo/out", mode := OpenMode.readOnly }
    ∧ ({ path := "/fifo/out", mode := OpenMode.writeOnly } : FifoOpen)
        ∈ stdoutTaskSample.opens
    ∧ ({ path := "/fifo/out", mode := OpenMode.readOnly } : FifoOpen)
        ∈ stdoutTaskSample.opens :=
  (copy_keep_alive_fds pioSample sioSample).1 stdoutTaskSample
    (by decide) "/fifo/out" (by decide)

end RuncShim
